import Mathlib

/-!
Shallow embedding of the payment-intent lifecycle of the fin-doc service
(src/app/main.py together with the table definitions of src/app/db.py).

The two handlers under study are `initiate_payment` (POST /payments/initiate)
and `stripe_webhook` (POST /webhooks/stripe).  External collaborators — the
Stripe SDK call `stripe.PaymentIntent.create` and the verifier
`stripe.Webhook.construct_event` — are modelled by the outcome they deliver to
the handler: a function argument for the former (the handler chooses the
arguments of the call), a plain outcome value for the latter (the handler
merely forwards payload, header and secret).  The relational store is a list
of rows; an SQL `UPDATE ... WHERE col = v SET status = s` is a `List.map`
that rewrites exactly the matching rows.
-/

namespace FinDoc

/-- A row of the `products` table (src/app/db.py, lines 27-33). -/
structure ProductRow where
  id : Int
  name : String
  price_in_pence : Int
  deriving Repr, DecidableEq

/-- A row of the `payments` table (src/app/db.py, lines 35-44). -/
structure PaymentRecord where
  id : Int
  product_id : Int
  user_id : String
  stripe_payment_intent_id : String
  status : String
  amount_in_pence : Int
  deriving Repr, DecidableEq

/-- A FastAPI `HTTPException` as raised in src/app/main.py: a status code and
a detail string. -/
structure HTTPError where
  status_code : Nat
  detail : String
  deriving Repr, DecidableEq

/-- Failure taxonomy of the `stripe.PaymentIntent.create` call as the
`try/except` ladder of `initiate_payment` distinguishes it (main.py
lines 162-167): `stripe.CardError`, any other `stripe.StripeError`, and any
other exception.  The payload is the string rendering `str(e)` of the
exception. -/
inductive StripeFailure where
  | cardError (msg : String)
  | stripeError (msg : String)
  | unexpected (msg : String)
  deriving Repr, DecidableEq

/-- The object returned by a successful `stripe.PaymentIntent.create` call,
restricted to the keys the handler reads: `id` and `client_secret`
(main.py lines 172, 179-180; the response model declares the client secret
`Optional[str]`). -/
structure PaymentIntentObj where
  id : String
  client_secret : Option String
  deriving Repr, DecidableEq

/-- The metadata dict `{"user_id": ..., "product_id": ...}` passed to
`stripe.PaymentIntent.create` (main.py lines 156-159). -/
structure IntentMetadata where
  user_id : String
  product_id : String
  deriving Repr, DecidableEq

/-- Response body of POST /payments/initiate (`PaymentIntentResponse`,
main.py lines 60-62). -/
structure PaymentIntentResponse where
  client_secret : Option String
  payment_intent_id : String
  deriving Repr, DecidableEq

/-- POST /payments/initiate (main.py lines 141-181).  `stripeCreate` stands
for the external `stripe.PaymentIntent.create`, taking the amount and the
metadata the handler passes (currency is the constant "gbp") and delivering
either an intent object or one of the three failure classes.  The store
assigns the next primary key to the inserted row; the result pairs the HTTP
outcome with the payments table after the call. -/
def initiate_payment (product_id : Int) (current_user_id : Int)
    (stripeCreate : Int → IntentMetadata → Except StripeFailure PaymentIntentObj)
    (productsDB : List ProductRow) (paymentsDB : List PaymentRecord) :
    Except HTTPError PaymentIntentResponse × List PaymentRecord :=
  match productsDB.find? (fun p => p.id == product_id) with
  | none => (Except.error ⟨404, "Product not found"⟩, paymentsDB)
  | some product =>
    let amount := product.price_in_pence
    match stripeCreate amount ⟨toString current_user_id, toString product_id⟩ with
    | Except.error (StripeFailure.cardError m) =>
        (Except.error ⟨400, m⟩, paymentsDB)
    | Except.error (StripeFailure.stripeError m) =>
        (Except.error ⟨400, "Stripe error: " ++ m⟩, paymentsDB)
    | Except.error (StripeFailure.unexpected m) =>
        (Except.error ⟨500, "An unexpected error occurred: " ++ m⟩, paymentsDB)
    | Except.ok payment_intent =>
        (Except.ok ⟨payment_intent.client_secret, payment_intent.id⟩,
          paymentsDB ++ [{
            id := Int.ofNat paymentsDB.length + 1
            product_id := product_id
            user_id := toString current_user_id
            stripe_payment_intent_id := payment_intent.id
            status := "pending"
            amount_in_pence := amount }])

/-- A parsed Stripe event as the webhook handler reads it: the `type` string
and, for payment events, `event["data"]["object"]["id"]` (main.py lines
228-231, 246-248). -/
structure StripeEvent where
  type : String
  object_id : String
  deriving Repr, DecidableEq

/-- Outcome of the external `stripe.Webhook.construct_event` call on the raw
payload, the signature header and the secret (main.py lines 219-226): a
`ValueError` (malformed payload), a `SignatureVerificationError`, or a parsed
event. -/
inductive ConstructOutcome where
  | valueError (msg : String)
  | sigError (msg : String)
  | event (e : StripeEvent)
  deriving Repr, DecidableEq

/-- Python truthiness of the header lookup
`request.headers.get("stripe-signature")` under `if not sig_header:`
(main.py line 214): an absent header is `None`, and both `None` and the
empty string are falsy. -/
def header_missing (sig_header : Option String) : Bool :=
  match sig_header with
  | none => true
  | some s => s == ""

/-- The SQL update
`payments.update().where(payments.c.stripe_payment_intent_id == pi).values(status=s)`
(main.py lines 233-237 and 250-254): every row whose
`stripe_payment_intent_id` equals `pi` gets `status := s`; no other row, and
no other column, changes. -/
def update_status_where_intent (pi : String) (s : String)
    (db : List PaymentRecord) : List PaymentRecord :=
  db.map (fun r =>
    if r.stripe_payment_intent_id == pi then { r with status := s } else r)

/-- POST /webhooks/stripe (main.py lines 204-261).  Returns the HTTP outcome
(the acknowledgment body is `{"status": "success"}`, modelled by the string
"success") and the payments table after the call.  `webhook_secret` is the
module-level `STRIPE_WEBHOOK_SECRET`, which is the empty string when the
environment variable is unset (main.py lines 23-27). -/
def stripe_webhook (sig_header : Option String) (webhook_secret : String)
    (construct_event : ConstructOutcome) (paymentsDB : List PaymentRecord) :
    Except HTTPError String × List PaymentRecord :=
  if header_missing sig_header then
    (Except.error ⟨400, "Missing Stripe-Signature header"⟩, paymentsDB)
  else if webhook_secret == "" then
    (Except.error ⟨500, "Webhook secret not configured"⟩, paymentsDB)
  else
    match construct_event with
    | ConstructOutcome.valueError m =>
        (Except.error ⟨400, "Invalid payload: " ++ m⟩, paymentsDB)
    | ConstructOutcome.sigError m =>
        (Except.error ⟨400, "Invalid signature: " ++ m⟩, paymentsDB)
    | ConstructOutcome.event ev =>
        if ev.type == "payment_intent.succeeded" then
          (Except.ok "success",
            update_status_where_intent ev.object_id "succeeded" paymentsDB)
        else if ev.type == "payment_intent.payment_failed" then
          (Except.ok "success",
            update_status_where_intent ev.object_id "failed" paymentsDB)
        else
          (Except.ok "success", paymentsDB)

/-! ### Store-level lemmas -/

/-- The two records agree on every column except possibly `status`. -/
def same_frame (r r' : PaymentRecord) : Prop :=
  r.id = r'.id ∧ r.product_id = r'.product_id ∧ r.user_id = r'.user_id ∧
  r.stripe_payment_intent_id = r'.stripe_payment_intent_id ∧
  r.amount_in_pence = r'.amount_in_pence

theorem same_frame_refl (r : PaymentRecord) : same_frame r r :=
  ⟨rfl, rfl, rfl, rfl, rfl⟩

theorem forall₂_same_frame_self (db : List PaymentRecord) :
    List.Forall₂ same_frame db db := by
  induction db with
  | nil => exact List.Forall₂.nil
  | cons r tl ih => exact List.Forall₂.cons (same_frame_refl r) ih

theorem forall₂_same_frame_update (pi s : String) (db : List PaymentRecord) :
    List.Forall₂ same_frame db (update_status_where_intent pi s db) := by
  induction db with
  | nil => exact List.Forall₂.nil
  | cons r tl ih =>
    refine List.Forall₂.cons ?_ ih
    by_cases h : (r.stripe_payment_intent_id == pi) = true
    · simp only [update_status_where_intent, h, if_true]
      exact ⟨rfl, rfl, rfl, rfl, rfl⟩
    · simp only [update_status_where_intent, h, if_false]
      exact same_frame_refl r

theorem update_status_length (pi s : String) (db : List PaymentRecord) :
    (update_status_where_intent pi s db).length = db.length :=
  List.length_map db _

theorem update_status_idem (pi s : String) (db : List PaymentRecord) :
    update_status_where_intent pi s (update_status_where_intent pi s db) =
      update_status_where_intent pi s db := by
  unfold update_status_where_intent
  rw [List.map_map]
  apply List.map_congr_left
  intro r _
  by_cases h : (r.stripe_payment_intent_id == pi) = true
  · simp [Function.comp, h]
  · simp [Function.comp, h]

theorem update_status_of_no_match (pi s : String) (db : List PaymentRecord)
    (h : ∀ r ∈ db, ¬ r.stripe_payment_intent_id = pi) :
    update_status_where_intent pi s db = db := by
  induction db with
  | nil => rfl
  | cons r tl ih =>
    have hr : ¬ r.stripe_payment_intent_id = pi := h r (List.mem_cons_self r tl)
    have hb : (r.stripe_payment_intent_id == pi) = false := beq_eq_false_iff_ne.mpr hr
    have htl := ih (fun x hx => h x (List.mem_cons_of_mem r hx))
    simp only [update_status_where_intent, List.map_cons] at htl ⊢
    rw [if_neg (by simp [hb]), htl]

theorem update_status_mem (pi s : String) (db : List PaymentRecord)
    (r : PaymentRecord) (hr : r ∈ db) (hid : r.stripe_payment_intent_id = pi) :
    { r with status := s } ∈ update_status_where_intent pi s db := by
  have hb : (r.stripe_payment_intent_id == pi) = true := beq_iff_eq.mpr hid
  have : (if r.stripe_payment_intent_id == pi
      then { r with status := s } else r) ∈ update_status_where_intent pi s db :=
    List.mem_map_of_mem _ hr
  rwa [if_pos hb] at this

/-! ### Run lemmas for the webhook handler -/

theorem stripe_webhook_event_run (sig_header : Option String)
    (webhook_secret : String) (ev : StripeEvent) (db : List PaymentRecord)
    (hsig : header_missing sig_header = false)
    (hsec : ¬ webhook_secret = "") :
    stripe_webhook sig_header webhook_secret (ConstructOutcome.event ev) db =
      (Except.ok "success",
        if ev.type == "payment_intent.succeeded" then
          update_status_where_intent ev.object_id "succeeded" db
        else if ev.type == "payment_intent.payment_failed" then
          update_status_where_intent ev.object_id "failed" db
        else db) := by
  have hsecb : (webhook_secret == "") = false := beq_eq_false_iff_ne.mpr hsec
  simp only [stripe_webhook, hsig, hsecb, Bool.false_eq_true, if_false]
  by_cases h1 : (ev.type == "payment_intent.succeeded") = true
  · simp [h1]
  · by_cases h2 : (ev.type == "payment_intent.payment_failed") = true
    · simp [h1, h2]
    · simp [h1, h2]

theorem stripe_webhook_succeeded_run (sig_header : Option String)
    (webhook_secret : String) (pi_id : String) (db : List PaymentRecord)
    (hsig : header_missing sig_header = false)
    (hsec : ¬ webhook_secret = "") :
    stripe_webhook sig_header webhook_secret
      (ConstructOutcome.event ⟨"payment_intent.succeeded", pi_id⟩) db =
      (Except.ok "success", update_status_where_intent pi_id "succeeded" db) := by
  rw [stripe_webhook_event_run _ _ _ _ hsig hsec]
  simp

theorem stripe_webhook_snd_cases (sig_header : Option String)
    (webhook_secret : String) (construct_event : ConstructOutcome)
    (db : List PaymentRecord) :
    (stripe_webhook sig_header webhook_secret construct_event db).2 = db ∨
    ∃ pi s, (stripe_webhook sig_header webhook_secret construct_event db).2 =
      update_status_where_intent pi s db := by
  unfold stripe_webhook
  repeat' split
  all_goals first
    | (left; rfl)
    | (right; exact ⟨_, _, rfl⟩)

/-! ### Claim theorems -/

/-- C1: the claim states that a record already in a terminal state is left
untouched by any further webhook, in particular that a "failed" event after
a "succeeded" event leaves the status `succeeded`, and that the handler only
ever performs the transitions pending→succeeded and pending→failed.  The
update in `stripe_webhook` filters on `stripe_payment_intent_id` alone, with
no condition on the current status, so this evaluation shows the handler
mutating a `succeeded` record to `failed`: the code performs the transition
succeeded→failed, contradicting the claim. -/
theorem stripe_webhook_failed_overwrites_succeeded :
    stripe_webhook (some "t=1,v1=abc") "whsec_test"
      (ConstructOutcome.event ⟨"payment_intent.payment_failed", "pi_1"⟩)
      [⟨1, 1, "1", "pi_1", "succeeded", 1999⟩] =
      (Except.ok "success", [⟨1, 1, "1", "pi_1", "failed", 1999⟩]) := by
  rfl

/-- C4: a webhook request failing verification is rejected before any status
mutation, with the store unchanged: missing (or empty, which Python's `not`
also treats as absent) signature header → 400; header present but signing
secret unconfigured (empty) → 500, never processing the event; malformed
payload (`ValueError`) → 400; invalid signature → 400.  In every branch the
payments table is returned exactly as it was. -/
theorem stripe_webhook_verification_failure_rejects (sig_header : Option String)
    (webhook_secret : String) (construct_event : ConstructOutcome)
    (db : List PaymentRecord) :
    (header_missing sig_header = true →
      stripe_webhook sig_header webhook_secret construct_event db =
        (Except.error ⟨400, "Missing Stripe-Signature header"⟩, db)) ∧
    (header_missing sig_header = false → webhook_secret = "" →
      stripe_webhook sig_header webhook_secret construct_event db =
        (Except.error ⟨500, "Webhook secret not configured"⟩, db)) ∧
    (header_missing sig_header = false → ¬ webhook_secret = "" →
      ∀ m, construct_event = ConstructOutcome.valueError m →
      stripe_webhook sig_header webhook_secret construct_event db =
        (Except.error ⟨400, "Invalid payload: " ++ m⟩, db)) ∧
    (header_missing sig_header = false → ¬ webhook_secret = "" →
      ∀ m, construct_event = ConstructOutcome.sigError m →
      stripe_webhook sig_header webhook_secret construct_event db =
        (Except.error ⟨400, "Invalid signature: " ++ m⟩, db)) := by
  refine ⟨?_, ?_, ?_, ?_⟩
  · intro h
    unfold stripe_webhook
    rw [if_pos h]
  · intro h hsec
    unfold stripe_webhook
    rw [if_neg (by simp [h]), if_pos (by simp [hsec])]
  · intro h hsec m hce
    subst hce
    have hsecb : (webhook_secret == "") = false := beq_eq_false_iff_ne.mpr hsec
    unfold stripe_webhook
    rw [if_neg (by simp [h]), if_neg (by simp [hsecb])]
  · intro h hsec m hce
    subst hce
    have hsecb : (webhook_secret == "") = false := beq_eq_false_iff_ne.mpr hsec
    unfold stripe_webhook
    rw [if_neg (by simp [h]), if_neg (by simp [hsecb])]

/-- Witness for C4: concrete rejection of an invalid signature with the
store unchanged. -/
theorem stripe_webhook_verification_failure_rejects_witness :
    stripe_webhook (some "t=1,v1=x") "whsec"
      (ConstructOutcome.sigError "bad sig")
      [⟨1, 1, "1", "pi_1", "pending", 1999⟩] =
      (Except.error ⟨400, "Invalid signature: bad sig"⟩,
        [⟨1, 1, "1", "pi_1", "pending", 1999⟩]) :=
  (stripe_webhook_verification_failure_rejects (some "t=1,v1=x") "whsec"
      (ConstructOutcome.sigError "bad sig")
      [⟨1, 1, "1", "pi_1", "pending", 1999⟩]).2.2.2
    (by decide) (by decide) "bad sig" rfl

/-- C10: a request with no signature header at all is answered with the 400
missing-signature rejection whatever the signing secret and whatever the
verifier would have said about the body: the missing-header check precedes
the misconfiguration check, so the result is the same for every
`webhook_secret` (including the unconfigured empty string) and every
`construct_event`, and the store is untouched. -/
theorem stripe_webhook_missing_header_precedes_misconfiguration
    (webhook_secret : String) (construct_event : ConstructOutcome)
    (db : List PaymentRecord) :
    stripe_webhook none webhook_secret construct_event db =
      (Except.error ⟨400, "Missing Stripe-Signature header"⟩, db) := by
  rfl

/-- C6: a signature-valid event (of any type, succeeded or failed included)
whose object id matches no stored record leaves the payments table unchanged
and still returns the success acknowledgment. -/
theorem stripe_webhook_unknown_intent_acks_unchanged (sig_header : Option String)
    (webhook_secret : String) (ev : StripeEvent) (db : List PaymentRecord)
    (hsig : header_missing sig_header = false)
    (hsec : ¬ webhook_secret = "")
    (hunknown : ∀ r ∈ db, ¬ r.stripe_payment_intent_id = ev.object_id) :
    stripe_webhook sig_header webhook_secret (ConstructOutcome.event ev) db =
      (Except.ok "success", db) := by
  rw [stripe_webhook_event_run _ _ _ _ hsig hsec]
  have hdb : (if ev.type == "payment_intent.succeeded" then
      update_status_where_intent ev.object_id "succeeded" db
    else if ev.type == "payment_intent.payment_failed" then
      update_status_where_intent ev.object_id "failed" db
    else db) = db := by
    split
    · exact update_status_of_no_match _ _ _ hunknown
    · split
      · exact update_status_of_no_match _ _ _ hunknown
      · rfl
  rw [hdb]

/-- Witness for C6: a signature-valid succeeded event for `pi_2` against a
store holding only `pi_1` acknowledges success and changes nothing. -/
theorem stripe_webhook_unknown_intent_acks_unchanged_witness :
    stripe_webhook (some "t=1,v1=x") "whsec"
      (ConstructOutcome.event ⟨"payment_intent.succeeded", "pi_2"⟩)
      [⟨1, 1, "1", "pi_1", "pending", 1999⟩] =
      (Except.ok "success", [⟨1, 1, "1", "pi_1", "pending", 1999⟩]) :=
  stripe_webhook_unknown_intent_acks_unchanged (some "t=1,v1=x") "whsec"
    ⟨"payment_intent.succeeded", "pi_2"⟩
    [⟨1, 1, "1", "pi_1", "pending", 1999⟩]
    (by decide) (by decide) (by decide)

/-- C8: a signature-valid event whose type is neither
"payment_intent.succeeded" nor "payment_intent.payment_failed" is
acknowledged with success and performs no storage mutation. -/
theorem stripe_webhook_unhandled_type_acks_unchanged (sig_header : Option String)
    (webhook_secret : String) (ev : StripeEvent) (db : List PaymentRecord)
    (hsig : header_missing sig_header = false)
    (hsec : ¬ webhook_secret = "")
    (h1 : ¬ ev.type = "payment_intent.succeeded")
    (h2 : ¬ ev.type = "payment_intent.payment_failed") :
    stripe_webhook sig_header webhook_secret (ConstructOutcome.event ev) db =
      (Except.ok "success", db) := by
  rw [stripe_webhook_event_run _ _ _ _ hsig hsec,
    if_neg (by simp [h1]), if_neg (by simp [h2])]

/-- Witness for C8: a `charge.refunded` event acknowledges success and
changes nothing. -/
theorem stripe_webhook_unhandled_type_acks_unchanged_witness :
    stripe_webhook (some "t=1,v1=x") "whsec"
      (ConstructOutcome.event ⟨"charge.refunded", "pi_1"⟩)
      [⟨1, 1, "1", "pi_1", "pending", 1999⟩] =
      (Except.ok "success", [⟨1, 1, "1", "pi_1", "pending", 1999⟩]) :=
  stripe_webhook_unhandled_type_acks_unchanged (some "t=1,v1=x") "whsec"
    ⟨"charge.refunded", "pi_1"⟩ [⟨1, 1, "1", "pi_1", "pending", 1999⟩]
    (by decide) (by decide) (by decide) (by decide)

/-- C5: delivering the same signature-valid "succeeded" event twice yields
the same store as delivering it once, the second delivery is answered with
the success acknowledgment (no error), no record is created or destroyed
(the store keeps its length), and a record that was `pending` for the
event's intent id ends up `succeeded`. -/
theorem stripe_webhook_succeeded_idempotent (sig_header : Option String)
    (webhook_secret : String) (pi_id : String) (db : List PaymentRecord)
    (hsig : header_missing sig_header = false)
    (hsec : ¬ webhook_secret = "") :
    (stripe_webhook sig_header webhook_secret
        (ConstructOutcome.event ⟨"payment_intent.succeeded", pi_id⟩)
        (stripe_webhook sig_header webhook_secret
          (ConstructOutcome.event ⟨"payment_intent.succeeded", pi_id⟩) db).2).2 =
      (stripe_webhook sig_header webhook_secret
        (ConstructOutcome.event ⟨"payment_intent.succeeded", pi_id⟩) db).2 ∧
    (stripe_webhook sig_header webhook_secret
        (ConstructOutcome.event ⟨"payment_intent.succeeded", pi_id⟩)
        (stripe_webhook sig_header webhook_secret
          (ConstructOutcome.event ⟨"payment_intent.succeeded", pi_id⟩) db).2).1 =
      Except.ok "success" ∧
    (stripe_webhook sig_header webhook_secret
        (ConstructOutcome.event ⟨"payment_intent.succeeded", pi_id⟩) db).2.length =
      db.length ∧
    ∀ r ∈ db, r.stripe_payment_intent_id = pi_id → r.status = "pending" →
      { r with status := "succeeded" } ∈
        (stripe_webhook sig_header webhook_secret
          (ConstructOutcome.event ⟨"payment_intent.succeeded", pi_id⟩) db).2 := by
  have hrun := stripe_webhook_succeeded_run sig_header webhook_secret pi_id db hsig hsec
  have hrun2 := stripe_webhook_succeeded_run sig_header webhook_secret pi_id
    (update_status_where_intent pi_id "succeeded" db) hsig hsec
  refine ⟨?_, ?_, ?_, ?_⟩
  · rw [hrun]
    show (stripe_webhook sig_header webhook_secret _
        (update_status_where_intent pi_id "succeeded" db)).2 =
      update_status_where_intent pi_id "succeeded" db
    rw [hrun2]
    exact update_status_idem pi_id "succeeded" db
  · rw [hrun]
    show (stripe_webhook sig_header webhook_secret _
        (update_status_where_intent pi_id "succeeded" db)).1 = Except.ok "success"
    rw [hrun2]
  · rw [hrun]
    exact update_status_length pi_id "succeeded" db
  · intro r hr hid _
    rw [hrun]
    exact update_status_mem pi_id "succeeded" db r hr hid

/-- Witness for C5: one pending record for `pi_1`; the first delivery turns
it `succeeded`, the second changes nothing and still acknowledges. -/
theorem stripe_webhook_succeeded_idempotent_witness :
    (stripe_webhook (some "t=1,v1=x") "whsec"
        (ConstructOutcome.event ⟨"payment_intent.succeeded", "pi_1"⟩)
        (stripe_webhook (some "t=1,v1=x") "whsec"
          (ConstructOutcome.event ⟨"payment_intent.succeeded", "pi_1"⟩)
          [⟨1, 1, "1", "pi_1", "pending", 1999⟩]).2).2 =
      (stripe_webhook (some "t=1,v1=x") "whsec"
        (ConstructOutcome.event ⟨"payment_intent.succeeded", "pi_1"⟩)
        [⟨1, 1, "1", "pi_1", "pending", 1999⟩]).2 ∧
    (stripe_webhook (some "t=1,v1=x") "whsec"
        (ConstructOutcome.event ⟨"payment_intent.succeeded", "pi_1"⟩)
        (stripe_webhook (some "t=1,v1=x") "whsec"
          (ConstructOutcome.event ⟨"payment_intent.succeeded", "pi_1"⟩)
          [⟨1, 1, "1", "pi_1", "pending", 1999⟩]).2).1 = Except.ok "success" ∧
    (stripe_webhook (some "t=1,v1=x") "whsec"
        (ConstructOutcome.event ⟨"payment_intent.succeeded", "pi_1"⟩)
        [⟨1, 1, "1", "pi_1", "pending", 1999⟩]).2.length =
      ([⟨1, 1, "1", "pi_1", "pending", 1999⟩] : List PaymentRecord).length ∧
    ∀ r ∈ ([⟨1, 1, "1", "pi_1", "pending", 1999⟩] : List PaymentRecord),
      r.stripe_payment_intent_id = "pi_1" → r.status = "pending" →
      { r with status := "succeeded" } ∈
        (stripe_webhook (some "t=1,v1=x") "whsec"
          (ConstructOutcome.event ⟨"payment_intent.succeeded", "pi_1"⟩)
          [⟨1, 1, "1", "pi_1", "pending", 1999⟩]).2 :=
  stripe_webhook_succeeded_idempotent (some "t=1,v1=x") "whsec" "pi_1"
    [⟨1, 1, "1", "pi_1", "pending", 1999⟩] (by decide) (by decide)

/-- C9: whatever the webhook request (verified or not, any event type), the
handler never creates or deletes a payment record — the store keeps its
length — and every surviving row agrees with its original on every column
except possibly `status`: id, product reference, user reference, external
payment-processor identifier and amount are all preserved. -/
theorem stripe_webhook_frame_preservation (sig_header : Option String)
    (webhook_secret : String) (construct_event : ConstructOutcome)
    (db : List PaymentRecord) :
    (stripe_webhook sig_header webhook_secret construct_event db).2.length =
      db.length ∧
    List.Forall₂ same_frame db
      (stripe_webhook sig_header webhook_secret construct_event db).2 := by
  rcases stripe_webhook_snd_cases sig_header webhook_secret construct_event db with
    h | ⟨pi, s, h⟩
  · rw [h]
    exact ⟨rfl, forall₂_same_frame_self db⟩
  · rw [h]
    exact ⟨update_status_length pi s db, forall₂_same_frame_update pi s db⟩

/-- C2: when the product is found and the gateway call succeeds,
`initiate_payment` appends exactly one new record to the payments table —
status `pending`, amount the snapshot of the product's price, external id
the id the gateway returned — and answers with that external id and the
client secret. -/
theorem initiate_payment_success_inserts_pending (product_id current_user_id : Int)
    (stripeCreate : Int → IntentMetadata → Except StripeFailure PaymentIntentObj)
    (productsDB : List ProductRow) (paymentsDB : List PaymentRecord)
    (product : ProductRow) (payment_intent : PaymentIntentObj)
    (hfind : productsDB.find? (fun p => p.id == product_id) = some product)
    (hcreate : stripeCreate product.price_in_pence
        ⟨toString current_user_id, toString product_id⟩ = Except.ok payment_intent) :
    initiate_payment product_id current_user_id stripeCreate productsDB paymentsDB =
      (Except.ok ⟨payment_intent.client_secret, payment_intent.id⟩,
        paymentsDB ++ [{
          id := Int.ofNat paymentsDB.length + 1
          product_id := product_id
          user_id := toString current_user_id
          stripe_payment_intent_id := payment_intent.id
          status := "pending"
          amount_in_pence := product.price_in_pence }]) := by
  unfold initiate_payment
  rw [hfind]
  simp only [hcreate]

/-- Witness for C2: the spec's concrete scenario — product "Widget" at 1999
pence, user 1, gateway returning `pi_1`/`cs_1` — yields the expected single
pending record. -/
theorem initiate_payment_success_inserts_pending_witness :
    initiate_payment 1 1 (fun _ _ => Except.ok ⟨"pi_1", some "cs_1"⟩)
      [⟨1, "Widget", 1999⟩] [] =
      (Except.ok ⟨some "cs_1", "pi_1"⟩,
        [⟨1, 1, "1", "pi_1", "pending", 1999⟩]) :=
  initiate_payment_success_inserts_pending 1 1
    (fun _ _ => Except.ok ⟨"pi_1", some "cs_1"⟩)
    [⟨1, "Widget", 1999⟩] [] ⟨1, "Widget", 1999⟩ ⟨"pi_1", some "cs_1"⟩
    (by decide) rfl

/-- C3: if the gateway call fails — decline, other gateway error, or
unexpected error — `initiate_payment` aborts with an HTTP error before any
persistence: the payments table is returned exactly as it was, so no record
referencing the failed call exists. -/
theorem initiate_payment_gateway_failure_no_insert (product_id current_user_id : Int)
    (stripeCreate : Int → IntentMetadata → Except StripeFailure PaymentIntentObj)
    (productsDB : List ProductRow) (paymentsDB : List PaymentRecord)
    (product : ProductRow) (f : StripeFailure)
    (hfind : productsDB.find? (fun p => p.id == product_id) = some product)
    (hcreate : stripeCreate product.price_in_pence
        ⟨toString current_user_id, toString product_id⟩ = Except.error f) :
    (initiate_payment product_id current_user_id stripeCreate
        productsDB paymentsDB).2 = paymentsDB ∧
    ∃ e : HTTPError,
      (initiate_payment product_id current_user_id stripeCreate
        productsDB paymentsDB).1 = Except.error e := by
  unfold initiate_payment
  rw [hfind]
  cases f <;> simp [hcreate]

/-- Witness for C3: a declined charge leaves the payments table empty. -/
theorem initiate_payment_gateway_failure_no_insert_witness :
    (initiate_payment 1 1
        (fun _ _ => Except.error (StripeFailure.cardError "Your card was declined."))
        [⟨1, "Widget", 1999⟩] []).2 = ([] : List PaymentRecord) ∧
    ∃ e : HTTPError,
      (initiate_payment 1 1
        (fun _ _ => Except.error (StripeFailure.cardError "Your card was declined."))
        [⟨1, "Widget", 1999⟩] []).1 = Except.error e :=
  initiate_payment_gateway_failure_no_insert 1 1
    (fun _ _ => Except.error (StripeFailure.cardError "Your card was declined."))
    [⟨1, "Widget", 1999⟩] [] ⟨1, "Widget", 1999⟩
    (StripeFailure.cardError "Your card was declined.") (by decide) rfl

/-- C7: `initiate_payment` maps each failure to the HTTP class the spec
names: 404 when the product is absent; 400 carrying the processor's message
(`str(e)`) on a decline; 400 with the "Stripe error: "-prefixed message on
any other gateway error; 500 on any unexpected failure. -/
theorem initiate_payment_http_error_mapping (product_id current_user_id : Int)
    (stripeCreate : Int → IntentMetadata → Except StripeFailure PaymentIntentObj)
    (productsDB : List ProductRow) (paymentsDB : List PaymentRecord) :
    (productsDB.find? (fun p => p.id == product_id) = none →
      (initiate_payment product_id current_user_id stripeCreate
        productsDB paymentsDB).1 = Except.error ⟨404, "Product not found"⟩) ∧
    (∀ product m, productsDB.find? (fun p => p.id == product_id) = some product →
      stripeCreate product.price_in_pence
          ⟨toString current_user_id, toString product_id⟩ =
        Except.error (StripeFailure.cardError m) →
      (initiate_payment product_id current_user_id stripeCreate
        productsDB paymentsDB).1 = Except.error ⟨400, m⟩) ∧
    (∀ product m, productsDB.find? (fun p => p.id == product_id) = some product →
      stripeCreate product.price_in_pence
          ⟨toString current_user_id, toString product_id⟩ =
        Except.error (StripeFailure.stripeError m) →
      (initiate_payment product_id current_user_id stripeCreate
        productsDB paymentsDB).1 = Except.error ⟨400, "Stripe error: " ++ m⟩) ∧
    (∀ product m, productsDB.find? (fun p => p.id == product_id) = some product →
      stripeCreate product.price_in_pence
          ⟨toString current_user_id, toString product_id⟩ =
        Except.error (StripeFailure.unexpected m) →
      (initiate_payment product_id current_user_id stripeCreate
        productsDB paymentsDB).1 =
        Except.error ⟨500, "An unexpected error occurred: " ++ m⟩) := by
  refine ⟨?_, ?_, ?_, ?_⟩
  · intro h
    unfold initiate_payment
    rw [h]
  · intro product m hfind hcreate
    unfold initiate_payment
    rw [hfind]
    simp only [hcreate]
  · intro product m hfind hcreate
    unfold initiate_payment
    rw [hfind]
    simp only [hcreate]
  · intro product m hfind hcreate
    unfold initiate_payment
    rw [hfind]
    simp only [hcreate]

/-- Witness for C7: the 404 branch on an unknown product id and the 400
branch on a decline, at concrete inputs. -/
theorem initiate_payment_http_error_mapping_witness :
    (initiate_payment 2 1 (fun _ _ => Except.ok ⟨"pi_1", some "cs_1"⟩)
        [⟨1, "Widget", 1999⟩] []).1 =
      Except.error ⟨404, "Product not found"⟩ ∧
    (initiate_payment 1 1
        (fun _ _ => Except.error (StripeFailure.cardError "Your card was declined."))
        [⟨1, "Widget", 1999⟩] []).1 =
      Except.error ⟨400, "Your card was declined."⟩ :=
  ⟨(initiate_payment_http_error_mapping 2 1
      (fun _ _ => Except.ok ⟨"pi_1", some "cs_1"⟩) [⟨1, "Widget", 1999⟩] []).1
      (by decide),
   (initiate_payment_http_error_mapping 1 1
      (fun _ _ => Except.error (StripeFailure.cardError "Your card was declined."))
      [⟨1, "Widget", 1999⟩] []).2.1 ⟨1, "Widget", 1999⟩ "Your card was declined."
      (by decide) rfl⟩

end FinDoc
